/-
Verification of the MindQuest backend entitlement engine.

Shallow embedding of:
  * the plan catalog and feature guard      (routes/usage.js, PLAN_LIMITS)
  * the entitlement evaluator               (routes/usage.js, /can-use and /increment)
  * the usage store                         (database.js, incrementUsage / resetUserUsage)
  * the subscription store                  (database.js, updateUserSubscription /
                                             updateSubscriptionByStripeId / get*)
  * the billing event processor             (server.js, webhook handlers)

Conventions: the SQLite rows are modelled as Lean lists of structures; SQL
UPDATE ... WHERE is a conditional map over the rows, SELECT ... (db.get) is a
first-match scan.  `updated_at` / `created_at` / `last_reset_date` bookkeeping
timestamps are not modelled; `last_payment_date` is, because the spec names it.
SQL comparison with a NULL parameter matches no row, so lookups by Stripe
subscription id take an `Option String` and `none` matches nothing.
-/
import Mathlib

namespace MindQuest

/-- Embedding of `plan_type` column / plan tier: free, pro or premium. -/
inductive Tier
  | free
  | pro
  | premium
deriving DecidableEq, Repr

/-- Embedding of `status` column of `user_subscriptions` (CHECK constraint in database.js). -/
inductive SubStatus
  | free
  | active
  | canceled
  | past_due
  | trialing
deriving DecidableEq, Repr

/-- Embedding of `payment_status` column of `user_subscriptions`. -/
inductive PaymentStatus
  | active
  | failed
  | pending
deriving DecidableEq, Repr

/-- A row of the `users` table (only the columns the core reads). -/
structure User where
  id : String
  email : String
deriving DecidableEq, Repr

/-- A row of the `user_subscriptions` table. -/
structure Subscription where
  userId : String
  stripeCustomerId : Option String
  stripeSubscriptionId : Option String
  status : SubStatus
  planType : Tier
  currentPeriodStart : Option Int
  currentPeriodEnd : Option Int
  lastPaymentDate : Option Int
  paymentStatus : PaymentStatus
deriving DecidableEq, Repr

/-- A row of the `user_usage` table; `usage_count` is a non-negative integer. -/
structure UsageRow where
  userId : String
  featureType : String
  usageCount : Nat
deriving DecidableEq, Repr

/-- The persistent state: the three tables created by database.js. -/
structure Store where
  users : List User
  subs : List Subscription
  usage : List UsageRow
deriving DecidableEq, Repr

/-! ## Plan catalog (PLAN_LIMITS in routes/usage.js) -/

/-- Embedding of `PLAN_LIMITS.free`: per-feature quotas of the free tier. -/
def freeLimits (f : String) : Option Int :=
  if f = "assessment" then some 2
  else if f = "journal_entry" then some 5
  else if f = "habit_tracking" then some 3
  else if f = "ai_insights" then some 1
  else none

/-- Embedding of `PLAN_LIMITS.pro`. -/
def proLimits (f : String) : Option Int :=
  if f = "assessment" then some 10
  else if f = "journal_entry" then some 50
  else if f = "habit_tracking" then some 20
  else if f = "ai_insights" then some 10
  else none

/-- Embedding of `PLAN_LIMITS.premium`: -1 denotes unlimited. -/
def premiumLimits (f : String) : Option Int :=
  if f = "assessment" then some (-1)
  else if f = "journal_entry" then some (-1)
  else if f = "habit_tracking" then some (-1)
  else if f = "ai_insights" then some (-1)
  else none

/-- Embedding of `PLAN_LIMITS[planType][feature]`. -/
def PLAN_LIMITS : Tier → String → Option Int
  | Tier.free, f => freeLimits f
  | Tier.pro, f => proLimits f
  | Tier.premium, f => premiumLimits f

/-- The route guard `if (!PLAN_LIMITS.free[feature])`: a feature is valid when
`PLAN_LIMITS.free[feature]` is a truthy JavaScript value (present and nonzero). -/
def validFeature (f : String) : Bool :=
  match freeLimits f with
  | some v => v != 0
  | none => false

/-! ## Store reads and writes (database.js) -/

/-- Embedding of `SELECT * FROM user_subscriptions WHERE user_id = ?` (db.get: first match). -/
def findSubByUser (u : String) : List Subscription → Option Subscription
  | [] => none
  | s :: ss => if s.userId = u then some s else findSubByUser u ss

/-- Embedding of `getUserSubscription`. -/
def getUserSubscription (st : Store) (u : String) : Option Subscription :=
  findSubByUser u st.subs

/-- First row whose `stripe_subscription_id` equals the given id. -/
def findSubByStripeIdStr (x : String) : List Subscription → Option Subscription
  | [] => none
  | s :: ss => if s.stripeSubscriptionId = some x then some s else findSubByStripeIdStr x ss

/-- Embedding of `SELECT * FROM user_subscriptions WHERE stripe_subscription_id = ?`;
a NULL parameter matches no row. -/
def findSubByStripeId (sid : Option String) (l : List Subscription) : Option Subscription :=
  match sid with
  | none => none
  | some x => findSubByStripeIdStr x l

/-- Embedding of `getSubscriptionByStripeId`. -/
def getSubscriptionByStripeId (st : Store) (sid : Option String) : Option Subscription :=
  findSubByStripeId sid st.subs

/-- The row scan of `usage.find(u => u.feature_type === feature)` over the rows
`SELECT ... WHERE user_id = ?` returned: first row matching both keys. -/
def findUsage (u f : String) : List UsageRow → Option UsageRow
  | [] => none
  | r :: rs => if r.userId = u ∧ r.featureType = f then some r else findUsage u f rs

/-- Embedding of `userUsage ? userUsage.usage_count : 0`. -/
def countOf (st : Store) (u f : String) : Nat :=
  match findUsage u f st.usage with
  | some r => r.usageCount
  | none => 0

/-- Embedding of `UPDATE user_usage SET usage_count = usage_count + 1 WHERE user_id = ? AND feature_type = ?`. -/
def bumpRows (u f : String) : List UsageRow → List UsageRow
  | [] => []
  | r :: rs =>
    (if r.userId = u ∧ r.featureType = f then { r with usageCount := r.usageCount + 1 } else r)
      :: bumpRows u f rs

/-- The UPDATE branch of `incrementUsage` applied to the store. -/
def applyUsageInc (st : Store) (u f : String) : Store :=
  { st with usage := bumpRows u f st.usage }

/-- The INSERT branch of `incrementUsage`: a fresh row with `usage_count = 1`. -/
def insertUsageRow (st : Store) (u f : String) : Store :=
  { st with usage := ⟨u, f, 1⟩ :: st.usage }

/-- Embedding of `incrementUsage(userId, featureType)`: read the existing row, then either
UPDATE (+1, returning the stale read plus one) or INSERT a count-1 row. -/
def incrementUsage (st : Store) (u f : String) : Nat × Store :=
  match findUsage u f st.usage with
  | some r => (r.usageCount + 1, applyUsageInc st u f)
  | none => (1, insertUsageRow st u f)

/-- Embedding of `UPDATE user_usage SET usage_count = 0 ... WHERE user_id = ?`. -/
def resetRows (u : String) : List UsageRow → List UsageRow
  | [] => []
  | r :: rs => (if r.userId = u then { r with usageCount := 0 } else r) :: resetRows u rs

/-- Embedding of `resetUserUsage(userId)`. -/
def resetUserUsage (st : Store) (u : String) : Store :=
  { st with usage := resetRows u st.usage }

/-! ## Entitlement evaluator (routes/usage.js) -/

/-- Embedding of `const planType = subscription ? subscription.plan_type : 'free'`. -/
def planTypeOf (st : Store) (u : String) : Tier :=
  match getUserSubscription st u with
  | some s => s.planType
  | none => Tier.free

/-- Evaluator failures surfaced to the request path. -/
inductive EvalError
  | invalidFeature
  | quotaExceeded (currentUsage : Nat) (limit : Int)
deriving DecidableEq, Repr

/-- The JSON body of GET /can-use/:feature. -/
structure CanUseResult where
  canUse : Bool
  currentUsage : Nat
  limit : Int
  unlimited : Bool
  planType : Tier
deriving DecidableEq, Repr

/-- GET /api/usage/can-use/:feature — side-effect-free entitlement check. -/
def canUse (st : Store) (u f : String) : Except EvalError CanUseResult :=
  if validFeature f then
    let tier := planTypeOf st u
    let cur := countOf st u f
    let lim := (PLAN_LIMITS tier f).getD 0
    Except.ok ⟨lim == -1 || (cur : Int) < lim, cur, lim, lim == -1, tier⟩
  else Except.error EvalError.invalidFeature

/-- POST /api/usage/increment/:feature run to completion with no interleaving:
guard, quota check on a fresh read, then `incrementUsage`.  Returns the new
usage reported to the caller and the resulting store. -/
def tryIncrement (st : Store) (u f : String) : Except EvalError Nat × Store :=
  if validFeature f then
    let tier := planTypeOf st u
    let cur := countOf st u f
    let lim := (PLAN_LIMITS tier f).getD 0
    if lim ≠ -1 ∧ (cur : Int) ≥ lim then
      (Except.error (EvalError.quotaExceeded cur lim), st)
    else
      let r := incrementUsage st u f
      (Except.ok r.1, r.2)
  else (Except.error EvalError.invalidFeature, st)

/-- Embedding of `tryIncrement` iterated n times (sequential calls, left to right). -/
def iterIncrement (u f : String) : Nat → Store → Store
  | 0, st => st
  | n + 1, st => (tryIncrement (iterIncrement u f n st) u f).2

/-! ## Billing event processor (server.js webhook handlers) -/

/-- The verified billing events the webhook dispatches on (payload fields the
handlers actually read; `amount` is `items.data[0].price.unit_amount`). -/
inductive BillingEvent
  | checkoutCompleted (email : Option String) (customer : String) (subId : Option String)
  | subscriptionChanged (id : String) (status : SubStatus) (amount : Option Int)
      (periodStart periodEnd : Int)
  | subscriptionDeleted (id : String)
  | paymentSucceeded (subId : Option String)
  | paymentFailed (subId : Option String)
  | unknownEvent
deriving DecidableEq, Repr

/-- Conditional row update: apply `g` to every row whose
`stripe_subscription_id` equals the given id. -/
def updateRowsByStripeIdStr (x : String) (g : Subscription → Subscription) :
    List Subscription → List Subscription
  | [] => []
  | s :: ss =>
    (if s.stripeSubscriptionId = some x then g s else s) :: updateRowsByStripeIdStr x g ss

/-- Embedding of `UPDATE user_subscriptions SET ... WHERE stripe_subscription_id = ?`:
a NULL parameter matches (and updates) no row. -/
def updateRowsByStripeId (sid : Option String) (g : Subscription → Subscription)
    (l : List Subscription) : List Subscription :=
  match sid with
  | none => l
  | some x => updateRowsByStripeIdStr x g l

/-- Embedding of `updateSubscriptionByStripeId`, specialised to the field update `g` a
handler passes. -/
def updateSubscriptionByStripeId (st : Store) (sid : Option String)
    (g : Subscription → Subscription) : Store :=
  { st with subs := updateRowsByStripeId sid g st.subs }

/-- Embedding of `UPDATE user_subscriptions SET ... WHERE user_id = ?`. -/
def updateRowsByUser (u : String) (g : Subscription → Subscription) :
    List Subscription → List Subscription
  | [] => []
  | s :: ss => (if s.userId = u then g s else s) :: updateRowsByUser u g ss

/-- The field set `handleCheckoutCompleted` passes: customer and subscription
references plus status 'active'. -/
def checkoutFields (customer : String) (subId : Option String) (s : Subscription) :
    Subscription :=
  { s with
    stripeCustomerId := some customer
    stripeSubscriptionId := subId
    status := SubStatus.active }

/-- The field set `handleSubscriptionChange` passes: status, plan type and the
period boundaries. -/
def subChangeFields (status : SubStatus) (t : Tier) (ps pe : Int) (s : Subscription) :
    Subscription :=
  { s with
    status := status
    planType := t
    currentPeriodStart := some ps
    currentPeriodEnd := some pe }

/-- The field set `handleSubscriptionDeleted` passes: status 'canceled' and
plan_type 'free'. -/
def cancelFields (s : Subscription) : Subscription :=
  { s with status := SubStatus.canceled, planType := Tier.free }

/-- The field set `handlePaymentSucceeded` passes: last payment date and
payment_status 'active'. -/
def paymentStamp (now : Int) (s : Subscription) : Subscription :=
  { s with lastPaymentDate := some now, paymentStatus := PaymentStatus.active }

/-- The field set `handlePaymentFailed` passes: payment_status 'failed'. -/
def failStamp (s : Subscription) : Subscription :=
  { s with paymentStatus := PaymentStatus.failed }

/-- The row `updateUserSubscription` INSERTs when the user has no subscription
row: only id, user_id and the checkout fields are given, every other column
takes its schema default (`plan_type` 'free', `payment_status` 'active',
NULL periods and payment date). -/
def defaultCheckoutSub (uid customer : String) (subId : Option String) : Subscription :=
  { userId := uid
    stripeCustomerId := some customer
    stripeSubscriptionId := subId
    status := SubStatus.active
    planType := Tier.free
    currentPeriodStart := none
    currentPeriodEnd := none
    lastPaymentDate := none
    paymentStatus := PaymentStatus.active }

/-- Embedding of `updateUserSubscription(userId, {stripe_customer_id, stripe_subscription_id,
status: 'active'})`: UPDATE the existing row(s) or INSERT a fresh one. -/
def updateUserSubscription (st : Store) (uid customer : String) (subId : Option String) :
    Store :=
  match findSubByUser uid st.subs with
  | some _ =>
    { st with subs := updateRowsByUser uid (checkoutFields customer subId) st.subs }
  | none => { st with subs := defaultCheckoutSub uid customer subId :: st.subs }

/-- Embedding of `SELECT * FROM users WHERE email = ?`. -/
def findUserByEmail (e : String) : List User → Option User
  | [] => none
  | u :: us => if u.email = e then some u else findUserByEmail e us

/-- Embedding of `handleCheckoutCompleted`: resolve the user by the session's customer
email, then create-or-update their subscription; missing email or unknown
user drops the event. -/
def handleCheckoutCompleted (email : Option String) (customer : String)
    (subId : Option String) (st : Store) : Store :=
  match email with
  | none => st
  | some e =>
    match findUserByEmail e st.users with
    | none => st
    | some u => updateUserSubscription st u.id customer subId

/-- The amount-to-tier mapping of `handleSubscriptionChange`: `unit_amount`
999 is pro, 2999 is premium, any other (absent or falsy included) is free. -/
def deriveTier (amount : Option Int) : Tier :=
  match amount with
  | none => Tier.free
  | some a =>
    if a ≠ 0 then
      if a = 999 then Tier.pro
      else if a = 2999 then Tier.premium
      else Tier.free
    else Tier.free

/-- Embedding of `handleSubscriptionChange`: status from the event, plan tier from the
price amount, period boundaries from the event. -/
def handleSubscriptionChange (id : String) (status : SubStatus) (amount : Option Int)
    (periodStart periodEnd : Int) (st : Store) : Store :=
  let planType := deriveTier amount
  updateSubscriptionByStripeId st (some id) (subChangeFields status planType periodStart periodEnd)

/-- Embedding of `handleSubscriptionDeleted`: status 'canceled', plan_type 'free'. -/
def handleSubscriptionDeleted (id : String) (st : Store) : Store :=
  updateSubscriptionByStripeId st (some id) cancelFields

/-- Embedding of `handlePaymentSucceeded`: stamp the payment on the subscription, then
reset the owning user's usage counters (if the subscription resolves). -/
def handlePaymentSucceeded (now : Int) (subId : Option String) (st : Store) : Store :=
  let st1 := updateSubscriptionByStripeId st subId (paymentStamp now)
  match getSubscriptionByStripeId st1 subId with
  | some s => resetUserUsage st1 s.userId
  | none => st1

/-- Embedding of `handlePaymentFailed`: payment_status 'failed'. -/
def handlePaymentFailed (subId : Option String) (st : Store) : Store :=
  updateSubscriptionByStripeId st subId failStamp

/-- The webhook switch with every store operation succeeding. -/
def applyEvent (now : Int) (e : BillingEvent) (st : Store) : Store :=
  match e with
  | BillingEvent.checkoutCompleted email customer subId =>
    handleCheckoutCompleted email customer subId st
  | BillingEvent.subscriptionChanged id status amount ps pe =>
    handleSubscriptionChange id status amount ps pe st
  | BillingEvent.subscriptionDeleted id => handleSubscriptionDeleted id st
  | BillingEvent.paymentSucceeded subId => handlePaymentSucceeded now subId st
  | BillingEvent.paymentFailed subId => handlePaymentFailed subId st
  | BillingEvent.unknownEvent => st

/-! ## Storage failure propagation (server.js try/catch structure)

Each handler wraps its database section in its own try/catch that logs and
swallows; the route's try/catch around the switch returns 500 only when a
handler throws.  `fail` is an oracle for "the handler's database section
throws a storage error"; the inner catch turns that into a normal return
with the store unchanged. -/

/-- HTTP outcome of the webhook route. -/
inductive WebhookResult
  | received
  | error500
deriving DecidableEq, Repr

/-- A handler's database section: either performs its writes or throws. -/
def dbSection (fail : Bool) (body : Store → Store) (st : Store) : Except Unit Store :=
  if fail then Except.error () else Except.ok (body st)

/-- A handler body run under its own try/catch: a storage error is logged and
swallowed, the store stays as the failed section left it (unchanged). -/
def handlerWithCatch (fail : Bool) (body : Store → Store) (st : Store) :
    Except Unit Store :=
  match dbSection fail body st with
  | Except.ok st1 => Except.ok st1
  | Except.error _ => Except.ok st

/-- The webhook route: dispatch under the route-level try/catch; a handler
that throws would produce a 500, a normal return produces `{received: true}`. -/
def processEvent (fail : Bool) (now : Int) (e : BillingEvent) (st : Store) :
    Store × WebhookResult :=
  let r : Except Unit Store :=
    match e with
    | BillingEvent.checkoutCompleted email customer subId =>
      match email with
      | none => Except.ok st
      | some eaddr => handlerWithCatch fail
          (fun s => match findUserByEmail eaddr s.users with
            | none => s
            | some u => updateUserSubscription s u.id customer subId) st
    | BillingEvent.subscriptionChanged id status amount ps pe =>
      handlerWithCatch fail (handleSubscriptionChange id status amount ps pe) st
    | BillingEvent.subscriptionDeleted id =>
      handlerWithCatch fail (handleSubscriptionDeleted id) st
    | BillingEvent.paymentSucceeded subId =>
      handlerWithCatch fail (handlePaymentSucceeded now subId) st
    | BillingEvent.paymentFailed subId =>
      handlerWithCatch fail (handlePaymentFailed subId) st
    | BillingEvent.unknownEvent => Except.ok st
  match r with
  | Except.ok st1 => (st1, WebhookResult.received)
  | Except.error _ => (st, WebhookResult.error500)

/-! ## Interleaved execution of the increment route (for the atomicity claim)

One request performs three atomic store accesses in sequence: the route-level
read of usage and subscription (the quota check), the read inside
`incrementUsage`, and the single SQL write (UPDATE += 1 or INSERT).  The
program counter of one in-flight request: -/

inductive TState
  | atCheck
  | atIncRead
  | atIncWrite (found : Bool) (snap : Nat)
  | finished (r : Except EvalError Nat)

/-- One atomic step of an in-flight POST /increment/:feature request. -/
def threadStep (u f : String) (st : Store) : TState → Store × TState
  | TState.atCheck =>
    if validFeature f then
      let tier := planTypeOf st u
      let cur := countOf st u f
      let lim := (PLAN_LIMITS tier f).getD 0
      if lim ≠ -1 ∧ (cur : Int) ≥ lim then
        (st, TState.finished (Except.error (EvalError.quotaExceeded cur lim)))
      else (st, TState.atIncRead)
    else (st, TState.finished (Except.error EvalError.invalidFeature))
  | TState.atIncRead =>
    match findUsage u f st.usage with
    | some r => (st, TState.atIncWrite true r.usageCount)
    | none => (st, TState.atIncWrite false 0)
  | TState.atIncWrite found snap =>
    if found then (applyUsageInc st u f, TState.finished (Except.ok (snap + 1)))
    else (insertUsageRow st u f, TState.finished (Except.ok 1))
  | TState.finished r => (st, TState.finished r)

/-- Run two concurrent requests for the same (user, feature) under a schedule:
`true` steps the first request, `false` the second. -/
def runTwo (u f : String) (st : Store) (sched : List Bool) : Store × TState × TState :=
  sched.foldl
    (fun acc b =>
      if b then
        let r := threadStep u f acc.1 acc.2.1
        (r.1, r.2, acc.2.2)
      else
        let r := threadStep u f acc.1 acc.2.2
        (r.1, acc.2.1, r.2))
    (st, TState.atCheck, TState.atCheck)

/-! ## Auxiliary definitions for the statements -/

/-- The store after n successful sequential increments of (u, f) starting from
a store with no (u, f) row: a single row holding count n sits in front of the
untouched original rows. -/
def stateAfter (u f : String) (st : Store) : Nat → Store
  | 0 => st
  | n + 1 => { st with usage := ⟨u, f, n + 1⟩ :: st.usage }

/-- The spec's Subscription invariant: plan tier free whenever the status is
free or canceled. -/
def tierInv (s : Subscription) : Prop :=
  (s.status = SubStatus.free ∨ s.status = SubStatus.canceled) → s.planType = Tier.free

instance (s : Subscription) : Decidable (tierInv s) := by
  unfold tierInv
  infer_instance

/-- The invariant over every subscription row of the store. -/
def storeInv (st : Store) : Prop :=
  ∀ s ∈ st.subs, tierInv s

instance (st : Store) : Decidable (storeInv st) := by
  unfold storeInv
  infer_instance

/-- A SubscriptionChanged payload that cannot break the tier invariant: its
amount maps to the free tier, or its status is neither free nor canceled.
Every other event counts as benign. -/
def benignEvent : BillingEvent → Bool
  | BillingEvent.subscriptionChanged _ status amount _ _ =>
    deriveTier amount == Tier.free
      || (status != SubStatus.free && status != SubStatus.canceled)
  | _ => true

/-! ## Concrete stores used in counterexamples and witnesses -/

/-- A store with no rows at all. -/
def emptyStore : Store :=
  { users := [], subs := [], usage := [] }

/-- A free-tier user one unit below the assessment quota of 2. -/
def raceStore : Store :=
  { users := [], subs := [], usage := [⟨"u1", "assessment", 1⟩] }

/-- A subscription whose status is canceled while its stored plan tier is
still pro, with 5 recorded assessments. -/
def exCanceledPro : Store :=
  { users := []
    subs := [⟨"u1", none, some "s1", SubStatus.canceled, Tier.pro, none, none, none,
      PaymentStatus.active⟩]
    usage := [⟨"u1", "assessment", 5⟩] }

/-- An active pro subscription with Stripe subscription id s1. -/
def exSubStore : Store :=
  { users := []
    subs := [⟨"u1", none, some "s1", SubStatus.active, Tier.pro, none, none, none,
      PaymentStatus.active⟩]
    usage := [] }

/-- The subscription row of `wPayStore`. -/
def wPaySub : Subscription :=
  ⟨"u2", none, some "s2", SubStatus.active, Tier.free, none, none, none, PaymentStatus.pending⟩

/-- A user at the free assessment quota (used 2 of 2) with subscription s2. -/
def wPayStore : Store :=
  { users := []
    subs := [wPaySub]
    usage := [⟨"u2", "assessment", 2⟩] }

/-- A registered user with no subscription row. -/
def wCheckoutStore : Store :=
  { users := [⟨"u1", "a@b.c"⟩], subs := [], usage := [] }

/-! ## General lemmas -/

/-- The guard accepts exactly the four keys of the free tier's limit table. -/
theorem validFeature_iff (f : String) :
    validFeature f = true ↔
      (f = "assessment" ∨ f = "journal_entry" ∨ f = "habit_tracking" ∨ f = "ai_insights") := by
  unfold validFeature freeLimits
  by_cases h1 : f = "assessment" <;> by_cases h2 : f = "journal_entry" <;>
    by_cases h3 : f = "habit_tracking" <;> by_cases h4 : f = "ai_insights" <;>
    simp [h1, h2, h3, h4]

/-- For a recognized feature, every tier's limit is the unlimited sentinel -1
or a positive quota. -/
theorem PLAN_LIMITS_pos (t : Tier) (f : String) (hf : validFeature f = true) :
    (PLAN_LIMITS t f).getD 0 = -1 ∨ 1 ≤ (PLAN_LIMITS t f).getD 0 := by
  rcases (validFeature_iff f).mp hf with h | h | h | h <;> subst h <;> cases t <;> decide

/-- If no (u, f) row exists, the conditional UPDATE leaves every row alone. -/
theorem bumpRows_of_not_found {u f : String} :
    ∀ {l : List UsageRow}, findUsage u f l = none → bumpRows u f l = l := by
  intro l
  induction l with
  | nil => intro _; rfl
  | cons r rs ih =>
    intro h
    unfold findUsage at h
    unfold bumpRows
    by_cases hc : r.userId = u ∧ r.featureType = f
    · rw [if_pos hc] at h
      exact absurd h (by simp)
    · rw [if_neg hc] at h
      rw [if_neg hc, ih h]

/-- Resetting a user's rows maps the found (u, f) row to count 0. -/
theorem findUsage_resetRows (u f : String) :
    ∀ l : List UsageRow,
      findUsage u f (resetRows u l)
        = (findUsage u f l).map (fun r => { r with usageCount := 0 }) := by
  intro l
  induction l with
  | nil => rfl
  | cons r rs ih =>
    unfold resetRows findUsage
    by_cases hu : r.userId = u
    · rw [if_pos hu]
      by_cases hc : r.userId = u ∧ r.featureType = f
      · rw [if_pos (show ({ r with usageCount := 0 } : UsageRow).userId = u ∧
            ({ r with usageCount := 0 } : UsageRow).featureType = f from hc),
          if_pos hc]
        rfl
      · rw [if_neg (show ¬(({ r with usageCount := 0 } : UsageRow).userId = u ∧
            ({ r with usageCount := 0 } : UsageRow).featureType = f) from hc),
          if_neg hc]
        exact ih
    · have hc : ¬(r.userId = u ∧ r.featureType = f) := fun hx => hu hx.1
      rw [if_neg hu, if_neg hc, if_neg hc]
      exact ih

/-- After `resetRows u`, every row of the user u carries count 0. -/
theorem mem_resetRows {u : String} {l : List UsageRow} {r : UsageRow}
    (h : r ∈ resetRows u l) (hu : r.userId = u) : r.usageCount = 0 := by
  induction l with
  | nil => cases h
  | cons r0 rs ih =>
    unfold resetRows at h
    rcases List.mem_cons.mp h with h0 | h0
    · by_cases h1 : r0.userId = u
      · rw [if_pos h1] at h0
        rw [h0]
      · rw [if_neg h1] at h0
        exact absurd (h0 ▸ hu) h1
    · exact ih h0

/-- Finding by Stripe id after the conditional UPDATE returns the updated row,
provided the update leaves the Stripe id untouched. -/
theorem findSub_updateRowsByStripeId (x : String) (g : Subscription → Subscription)
    (hg : ∀ s, (g s).stripeSubscriptionId = s.stripeSubscriptionId) :
    ∀ l : List Subscription,
      findSubByStripeIdStr x (updateRowsByStripeIdStr x g l)
        = (findSubByStripeIdStr x l).map g := by
  intro l
  induction l with
  | nil => rfl
  | cons s ss ih =>
    unfold updateRowsByStripeIdStr findSubByStripeIdStr
    by_cases h : s.stripeSubscriptionId = some x
    · rw [if_pos h, if_pos (by rw [hg s]; exact h), if_pos h]
      rfl
    · rw [if_neg h, if_neg h, if_neg h]
      exact ih

/-- Membership in the conditionally updated subscription rows. -/
theorem mem_updateRowsByStripeId {x : String} {g : Subscription → Subscription}
    {l : List Subscription} {s0 : Subscription}
    (h : s0 ∈ updateRowsByStripeIdStr x g l) :
    ∃ s ∈ l, s0 = if s.stripeSubscriptionId = some x then g s else s := by
  induction l with
  | nil => cases h
  | cons s ss ih =>
    unfold updateRowsByStripeIdStr at h
    rcases List.mem_cons.mp h with h0 | h0
    · exact ⟨s, List.mem_cons_self s ss, h0⟩
    · rcases ih h0 with ⟨s1, hs1, he⟩
      exact ⟨s1, List.mem_cons_of_mem s hs1, he⟩

/-- Membership in the rows conditionally updated by user id. -/
theorem mem_updateRowsByUser {u : String} {g : Subscription → Subscription}
    {l : List Subscription} {s0 : Subscription}
    (h : s0 ∈ updateRowsByUser u g l) :
    ∃ s ∈ l, s0 = if s.userId = u then g s else s := by
  induction l with
  | nil => cases h
  | cons s ss ih =>
    unfold updateRowsByUser at h
    rcases List.mem_cons.mp h with h0 | h0
    · exact ⟨s, List.mem_cons_self s ss, h0⟩
    · rcases ih h0 with ⟨s1, hs1, he⟩
      exact ⟨s1, List.mem_cons_of_mem s hs1, he⟩

/-- The checkout UPDATE never touches the plan_type column. -/
theorem planTypes_updateRowsByUser (u : String) (g : Subscription → Subscription)
    (hg : ∀ s, (g s).planType = s.planType) :
    ∀ l : List Subscription,
      (updateRowsByUser u g l).map Subscription.planType = l.map Subscription.planType := by
  intro l
  induction l with
  | nil => rfl
  | cons s ss ih =>
    unfold updateRowsByUser
    by_cases h : s.userId = u
    · rw [if_pos h]
      simp [hg s, ih]
    · rw [if_neg h]
      simp [ih]

/-- The conditional UPDATE by Stripe id is idempotent when its field update is. -/
theorem updateRowsByStripeId_idem (x : String) (g : Subscription → Subscription)
    (hg1 : ∀ s, (g s).stripeSubscriptionId = s.stripeSubscriptionId)
    (hg2 : ∀ s, g (g s) = g s) :
    ∀ l : List Subscription,
      updateRowsByStripeIdStr x g (updateRowsByStripeIdStr x g l)
        = updateRowsByStripeIdStr x g l := by
  intro l
  induction l with
  | nil => rfl
  | cons s ss ih =>
    show updateRowsByStripeIdStr x g
        ((if s.stripeSubscriptionId = some x then g s else s) :: updateRowsByStripeIdStr x g ss)
      = (if s.stripeSubscriptionId = some x then g s else s) :: updateRowsByStripeIdStr x g ss
    by_cases h : s.stripeSubscriptionId = some x
    · rw [if_pos h]
      show (if (g s).stripeSubscriptionId = some x then g (g s) else g s)
          :: updateRowsByStripeIdStr x g (updateRowsByStripeIdStr x g ss)
        = g s :: updateRowsByStripeIdStr x g ss
      rw [if_pos (by rw [hg1 s]; exact h), hg2 s, ih]
    · rw [if_neg h]
      show (if s.stripeSubscriptionId = some x then g s else s)
          :: updateRowsByStripeIdStr x g (updateRowsByStripeIdStr x g ss)
        = s :: updateRowsByStripeIdStr x g ss
      rw [if_neg h, ih]

/-! ## Sequential quota enforcement (lemmas for the increment route) -/

/-- Sequential increments never touch the subscription table, so the resolved
plan tier is stable. -/
theorem planTypeOf_stateAfter (u f v : String) (st : Store) (n : Nat) :
    planTypeOf (stateAfter u f st n) v = planTypeOf st v := by
  cases n <;> rfl

/-- The stored count after n sequential increments from a fresh state is n. -/
theorem countOf_stateAfter (u f : String) (st : Store)
    (h0 : findUsage u f st.usage = none) :
    ∀ n, countOf (stateAfter u f st n) u f = n := by
  intro n
  cases n with
  | zero =>
    show countOf st u f = 0
    unfold countOf
    rw [h0]
  | succ m =>
    show countOf { st with usage := ⟨u, f, m + 1⟩ :: st.usage } u f = m + 1
    unfold countOf findUsage
    rw [if_pos ⟨rfl, rfl⟩]

/-- Below the quota, one more sequential call succeeds and advances the state. -/
theorem tryIncrement_stateAfter_lt (st : Store) (u f : String) (q : Nat)
    (hv : validFeature f = true)
    (hq : PLAN_LIMITS (planTypeOf st u) f = some (q : Int))
    (h0 : findUsage u f st.usage = none) :
    ∀ n, n < q →
      tryIncrement (stateAfter u f st n) u f
        = (Except.ok (n + 1), stateAfter u f st (n + 1)) := by
  intro n hn
  have hp : planTypeOf (stateAfter u f st n) u = planTypeOf st u :=
    planTypeOf_stateAfter u f u st n
  have hc : countOf (stateAfter u f st n) u f = n := countOf_stateAfter u f st h0 n
  have hguard : ¬((PLAN_LIMITS (planTypeOf (stateAfter u f st n) u) f).getD 0 ≠ -1 ∧
      ((countOf (stateAfter u f st n) u f : Int)
        ≥ (PLAN_LIMITS (planTypeOf (stateAfter u f st n) u) f).getD 0)) := by
    rw [hp, hq, hc]
    simp only [Option.getD_some]
    intro hand
    have := hand.2
    omega
  unfold tryIncrement
  rw [hv]
  simp only [if_true, if_neg hguard]
  cases n with
  | zero =>
    show (Except.ok (incrementUsage st u f).1, (incrementUsage st u f).2)
      = (Except.ok 1, stateAfter u f st 1)
    unfold incrementUsage
    rw [h0]
    rfl
  | succ m =>
    show (Except.ok (incrementUsage (stateAfter u f st (m + 1)) u f).1,
        (incrementUsage (stateAfter u f st (m + 1)) u f).2)
      = (Except.ok (m + 2), stateAfter u f st (m + 2))
    have hfind : findUsage u f (stateAfter u f st (m + 1)).usage = some ⟨u, f, m + 1⟩ := by
      show findUsage u f (⟨u, f, m + 1⟩ :: st.usage) = some ⟨u, f, m + 1⟩
      unfold findUsage
      rw [if_pos ⟨rfl, rfl⟩]
    unfold incrementUsage
    rw [hfind]
    show (Except.ok (m + 1 + 1), applyUsageInc (stateAfter u f st (m + 1)) u f)
      = (Except.ok (m + 2), stateAfter u f st (m + 2))
    have hb : bumpRows u f (⟨u, f, m + 1⟩ :: st.usage) = ⟨u, f, m + 2⟩ :: st.usage := by
      unfold bumpRows
      rw [if_pos ⟨rfl, rfl⟩, bumpRows_of_not_found h0]
    show (Except.ok (m + 1 + 1),
        { stateAfter u f st (m + 1) with usage := bumpRows u f (stateAfter u f st (m + 1)).usage })
      = (Except.ok (m + 2), stateAfter u f st (m + 2))
    have : bumpRows u f (stateAfter u f st (m + 1)).usage = ⟨u, f, m + 2⟩ :: st.usage := hb
    rw [this]
    rfl

/-- At the quota, the sequential call fails reporting used = limit = q and
leaves the state untouched. -/
theorem tryIncrement_stateAfter_quota (st : Store) (u f : String) (q : Nat)
    (hv : validFeature f = true)
    (hq : PLAN_LIMITS (planTypeOf st u) f = some (q : Int))
    (h0 : findUsage u f st.usage = none) :
    tryIncrement (stateAfter u f st q) u f
      = (Except.error (EvalError.quotaExceeded q (q : Int)), stateAfter u f st q) := by
  have hp : planTypeOf (stateAfter u f st q) u = planTypeOf st u :=
    planTypeOf_stateAfter u f u st q
  have hc : countOf (stateAfter u f st q) u f = q := countOf_stateAfter u f st h0 q
  have hguard : (PLAN_LIMITS (planTypeOf (stateAfter u f st q) u) f).getD 0 ≠ -1 ∧
      ((countOf (stateAfter u f st q) u f : Int)
        ≥ (PLAN_LIMITS (planTypeOf (stateAfter u f st q) u) f).getD 0) := by
    rw [hp, hq, hc]
    simp only [Option.getD_some]
    constructor
    · omega
    · omega
  unfold tryIncrement
  rw [hv]
  simp only [if_true, if_pos hguard]
  rw [hc, hp, hq]
  simp only [Option.getD_some]

/-- Each sequential call keeps the state on the `stateAfter` trajectory. -/
theorem iterIncrement_eq_stateAfter (st : Store) (u f : String) (q : Nat)
    (hv : validFeature f = true)
    (hq : PLAN_LIMITS (planTypeOf st u) f = some (q : Int))
    (h0 : findUsage u f st.usage = none) :
    ∀ n, n ≤ q → iterIncrement u f n st = stateAfter u f st n := by
  intro n
  induction n with
  | zero => intro _; rfl
  | succ m ih =>
    intro hm
    have h1 : m < q := lt_of_lt_of_le (Nat.lt_succ_self m) hm
    show (tryIncrement (iterIncrement u f m st) u f).2 = stateAfter u f st (m + 1)
    rw [ih (le_of_lt h1), tryIncrement_stateAfter_lt st u f q hv hq h0 m h1]

/-- After an unconditional reset, the user's stored count reads as 0. -/
theorem countOf_resetUserUsage (st : Store) (u f : String) :
    countOf (resetUserUsage st u) u f = 0 := by
  show (match findUsage u f (resetRows u st.usage) with
    | some r => r.usageCount
    | none => 0) = 0
  rw [findUsage_resetRows]
  cases findUsage u f st.usage <;> rfl

/-- With a recognized feature and a zero count, the can-use check grants. -/
theorem canUse_true_of_zero (st : Store) (u f : String) (hf : validFeature f = true)
    (hc : countOf st u f = 0) :
    ∃ res, canUse st u f = Except.ok res ∧ res.canUse = true := by
  unfold canUse
  rw [hf]
  simp only [if_true]
  refine ⟨_, rfl, ?_⟩
  show ((PLAN_LIMITS (planTypeOf st u) f).getD 0 == -1
      || decide ((countOf st u f : Int) < (PLAN_LIMITS (planTypeOf st u) f).getD 0)) = true
  rw [hc]
  rcases PLAN_LIMITS_pos (planTypeOf st u) f hf with hl | hl
  · rw [hl]
    rfl
  · rw [Bool.or_eq_true]
    right
    exact decide_eq_true (by push_cast; omega)

/-! ## Claim theorems -/

/-- C1 (the code violates the claim): with one unit of the assessment quota
remaining (count 1 of limit 2), two concurrent increment requests whose
route-level reads both happen before either write BOTH succeed, and the
stored count ends at 3, above the quota — the read-check-increment sequence
is not atomic, so "exactly one success and a final count equal to the quota"
fails on the code. -/
theorem concurrent_increment_race :
    (runTwo "u1" "assessment" raceStore [true, false, true, false, true, false]).2.1
        = TState.finished (Except.ok 2) ∧
    (runTwo "u1" "assessment" raceStore [true, false, true, false, true, false]).2.2
        = TState.finished (Except.ok 2) ∧
    countOf (runTwo "u1" "assessment" raceStore [true, false, true, false, true, false]).1
        "u1" "assessment" = 3 ∧
    PLAN_LIMITS Tier.free "assessment" = some 2 :=
  ⟨rfl, rfl, rfl, rfl⟩

/-- C3 (counterexample): a subscription with status canceled but stored plan
tier pro resolves to pro, not free — the evaluator never consults the status.
At 5 recorded assessments it still grants against the pro limit of 10, where
the free limit of 2 would deny. -/
theorem canceled_subscription_resolves_pro :
    (getUserSubscription exCanceledPro "u1").map Subscription.status
        = some SubStatus.canceled ∧
    planTypeOf exCanceledPro "u1" = Tier.pro ∧
    canUse exCanceledPro "u1" "assessment" = Except.ok ⟨true, 5, 10, false, Tier.pro⟩ :=
  ⟨rfl, rfl, rfl⟩

/-- C3 (amended): the evaluator resolves the tier to free exactly when the
user has no subscription row; when a row exists, the stored plan tier is used
as-is, with the status ignored. -/
theorem planTier_resolution (st : Store) (u : String) :
    (getUserSubscription st u = none → planTypeOf st u = Tier.free) ∧
    ∀ s, getUserSubscription st u = some s → planTypeOf st u = s.planType := by
  constructor
  · intro h
    unfold planTypeOf
    rw [h]
  · intro s h
    unfold planTypeOf
    rw [h]

/-- C3 (witness): a user without a subscription row resolves to free. -/
theorem planTier_resolution_witness :
    planTypeOf emptyStore "u1" = Tier.free :=
  (planTier_resolution emptyStore "u1").1 rfl

/-- C5 (counterexample): a storage failure inside the SubscriptionDeleted
handler is swallowed by the handler's own catch: the webhook still answers
received (HTTP 200), with the store unchanged, so the billing provider never
redelivers — the claimed propagation to the caller does not happen. -/
theorem storage_failure_swallowed :
    processEvent true 0 (BillingEvent.subscriptionDeleted "s1") exSubStore
      = (exSubStore, WebhookResult.received) :=
  rfl

/-- C5 (amended): every handler catches its own storage errors and logs them,
so the webhook route's 500 branch is unreachable: for every event and every
failure outcome of the handler's store operations, the processor reports
received to its caller. -/
theorem processEvent_always_received (fail : Bool) (now : Int) (e : BillingEvent)
    (st : Store) :
    (processEvent fail now e st).2 = WebhookResult.received := by
  cases e with
  | checkoutCompleted email customer subId =>
    cases email with
    | none => rfl
    | some eaddr => cases fail <;> rfl
  | subscriptionChanged id status amount ps pe => cases fail <;> rfl
  | subscriptionDeleted id => cases fail <;> rfl
  | paymentSucceeded subId => cases fail <;> rfl
  | paymentFailed subId => cases fail <;> rfl
  | unknownEvent => rfl

/-- C6: the tier derived from a SubscriptionChanged price amount is pro for
999, premium for 2999, and free for an absent amount or any other amount. -/
theorem tier_derivation (a : Int) (h999 : a ≠ 999) (h2999 : a ≠ 2999) :
    deriveTier (some 999) = Tier.pro ∧ deriveTier (some 2999) = Tier.premium ∧
      deriveTier none = Tier.free ∧ deriveTier (some a) = Tier.free := by
  refine ⟨rfl, rfl, rfl, ?_⟩
  show (if a ≠ 0 then
      (if a = 999 then Tier.pro else if a = 2999 then Tier.premium else Tier.free)
    else Tier.free) = Tier.free
  by_cases h0 : a = 0
  · rw [if_neg (not_not_intro h0)]
  · rw [if_pos h0, if_neg h999, if_neg h2999]

/-- C6 (witness): the mapping at the concrete amounts 999, 2999, absent, 500. -/
theorem tier_derivation_witness :
    deriveTier (some 999) = Tier.pro ∧ deriveTier (some 2999) = Tier.premium ∧
      deriveTier none = Tier.free ∧ deriveTier (some 500) = Tier.free :=
  tier_derivation 500 (by decide) (by decide)

/-- C9: the guard accepts exactly the key set of the free tier's limits, and
any other feature string is rejected by both the can-use check and the
increment with InvalidFeature, the store left untouched. -/
theorem feature_guard (st : Store) (u f : String) :
    (validFeature f = true ↔
      (f = "assessment" ∨ f = "journal_entry" ∨ f = "habit_tracking" ∨ f = "ai_insights")) ∧
    (validFeature f = false →
      canUse st u f = Except.error EvalError.invalidFeature ∧
      tryIncrement st u f = (Except.error EvalError.invalidFeature, st)) := by
  refine ⟨validFeature_iff f, ?_⟩
  intro h
  constructor
  · unfold canUse
    rw [h]
    exact rfl
  · unfold tryIncrement
    rw [h]
    exact rfl

/-- C9 (witness): the unrecognized feature foo is rejected with no state
change. -/
theorem feature_guard_witness :
    canUse emptyStore "u1" "foo" = Except.error EvalError.invalidFeature ∧
    tryIncrement emptyStore "u1" "foo" = (Except.error EvalError.invalidFeature, emptyStore) :=
  (feature_guard emptyStore "u1" "foo").2 (by decide)

/-- C2: for a user whose resolved plan gives the recognized feature f the
finite quota q, starting from a state without a (u, f) usage row, the first
q sequential increment calls succeed returning 1, ..., q; the stored count
then equals q, and the (q+1)-th call fails with QuotaExceeded reporting
used = q and limit = q, leaving the store unchanged. -/
theorem tryIncrement_sequential (st : Store) (u f : String) (q : Nat)
    (hv : validFeature f = true)
    (hq : PLAN_LIMITS (planTypeOf st u) f = some (q : Int))
    (h0 : findUsage u f st.usage = none) :
    (∀ n, n < q → (tryIncrement (iterIncrement u f n st) u f).1 = Except.ok (n + 1)) ∧
    countOf (iterIncrement u f q st) u f = q ∧
    tryIncrement (iterIncrement u f q st) u f
      = (Except.error (EvalError.quotaExceeded q (q : Int)), iterIncrement u f q st) := by
  refine ⟨?_, ?_, ?_⟩
  · intro n hn
    rw [iterIncrement_eq_stateAfter st u f q hv hq h0 n (le_of_lt hn),
      tryIncrement_stateAfter_lt st u f q hv hq h0 n hn]
  · rw [iterIncrement_eq_stateAfter st u f q hv hq h0 q (le_refl q)]
    exact countOf_stateAfter u f st h0 q
  · rw [iterIncrement_eq_stateAfter st u f q hv hq h0 q (le_refl q)]
    exact tryIncrement_stateAfter_quota st u f q hv hq h0

/-- C2 (witness): a free-tier user on assessment (quota 2): after two
successful calls the third fails with QuotaExceeded 2 2 and no state change. -/
theorem tryIncrement_sequential_witness :
    tryIncrement (iterIncrement "u1" "assessment" 2 emptyStore) "u1" "assessment"
      = (Except.error (EvalError.quotaExceeded 2 2),
        iterIncrement "u1" "assessment" 2 emptyStore) :=
  (tryIncrement_sequential emptyStore "u1" "assessment" 2 (by decide) (by decide) rfl).2.2

/-- C10: a CheckoutCompleted event resolving to a registered user never writes
the plan tier: with an existing subscription row the per-row plan tiers are
unchanged, and without one the inserted row carries the schema default free,
so the user still resolves to free-tier quotas. -/
theorem handleCheckoutCompleted_planTier (em customer : String) (subId : Option String)
    (st : Store) (u : User) (hu : findUserByEmail em st.users = some u) :
    ((∃ s, findSubByUser u.id st.subs = some s) →
      (handleCheckoutCompleted (some em) customer subId st).subs.map Subscription.planType
        = st.subs.map Subscription.planType) ∧
    (findSubByUser u.id st.subs = none →
      (handleCheckoutCompleted (some em) customer subId st).subs
          = defaultCheckoutSub u.id customer subId :: st.subs ∧
      (defaultCheckoutSub u.id customer subId).planType = Tier.free ∧
      planTypeOf (handleCheckoutCompleted (some em) customer subId st) u.id = Tier.free) := by
  have hred : handleCheckoutCompleted (some em) customer subId st
      = updateUserSubscription st u.id customer subId := by
    show (match findUserByEmail em st.users with
      | none => st
      | some u0 => updateUserSubscription st u0.id customer subId)
      = updateUserSubscription st u.id customer subId
    rw [hu]
  rw [hred]
  constructor
  · rintro ⟨s, hs⟩
    unfold updateUserSubscription
    rw [hs]
    show List.map Subscription.planType
        (updateRowsByUser u.id (checkoutFields customer subId) st.subs)
      = List.map Subscription.planType st.subs
    exact planTypes_updateRowsByUser u.id (checkoutFields customer subId) (fun _ => rfl) st.subs
  · intro hnone
    unfold updateUserSubscription
    rw [hnone]
    refine ⟨rfl, rfl, ?_⟩
    show planTypeOf { st with subs := defaultCheckoutSub u.id customer subId :: st.subs } u.id
      = Tier.free
    unfold planTypeOf getUserSubscription findSubByUser
    rw [if_pos (show (defaultCheckoutSub u.id customer subId).userId = u.id from rfl)]
    exact rfl

/-- C10 (witness): a fresh checkout for a user with no subscription row
creates the default row with plan tier free and the user resolves to free. -/
theorem handleCheckoutCompleted_planTier_witness :
    (handleCheckoutCompleted (some "a@b.c") "cus_1" (some "sub_1") wCheckoutStore).subs
        = defaultCheckoutSub "u1" "cus_1" (some "sub_1") :: wCheckoutStore.subs ∧
    (defaultCheckoutSub "u1" "cus_1" (some "sub_1")).planType = Tier.free ∧
    planTypeOf (handleCheckoutCompleted (some "a@b.c") "cus_1" (some "sub_1") wCheckoutStore)
        "u1" = Tier.free :=
  (handleCheckoutCompleted_planTier "a@b.c" "cus_1" (some "sub_1") wCheckoutStore
    ⟨"u1", "a@b.c"⟩ (by decide)).2 (by decide)

/-- C4 (counterexample): the tier invariant (plan free whenever status is
free or canceled) holds of a store with an active pro subscription, yet a
single SubscriptionChanged event carrying status canceled and amount 999
(tier pro) breaks it — the handler writes status and tier independently, so
not every event handler preserves the invariant. -/
theorem subscriptionChange_breaks_invariant :
    storeInv exSubStore ∧
    ¬ storeInv (applyEvent 0
      (BillingEvent.subscriptionChanged "s1" SubStatus.canceled (some 999) 0 0) exSubStore) := by
  constructor
  · decide
  · decide

/-- C4 (amended): every handler except SubscriptionChanged preserves the tier
invariant, and SubscriptionChanged preserves it when the event is benign: its
amount derives to tier free, or its status is neither free nor canceled. -/
theorem applyEvent_preserves_tierInv (now : Int) (e : BillingEvent) (st : Store)
    (hst : storeInv st) (hb : benignEvent e = true) :
    storeInv (applyEvent now e st) := by
  cases e with
  | checkoutCompleted email customer subId =>
    show storeInv (handleCheckoutCompleted email customer subId st)
    cases email with
    | none => exact hst
    | some eaddr =>
      show storeInv (match findUserByEmail eaddr st.users with
        | none => st
        | some u0 => updateUserSubscription st u0.id customer subId)
      cases hu : findUserByEmail eaddr st.users with
      | none => exact hst
      | some u0 =>
        show storeInv (updateUserSubscription st u0.id customer subId)
        unfold updateUserSubscription
        cases hsub : findSubByUser u0.id st.subs with
        | some s1 =>
          intro s0 hs0
          rcases mem_updateRowsByUser hs0 with ⟨s2, hs2, he⟩
          by_cases hcase : s2.userId = u0.id
          · rw [if_pos hcase] at he
            subst he
            intro hor
            rcases hor with h1 | h1 <;> exact absurd h1 (by simp [checkoutFields])
          · rw [if_neg hcase] at he
            subst he
            exact hst s0 hs2
        | none =>
          intro s0 hs0
          rcases List.mem_cons.mp hs0 with h1 | h1
          · rw [h1]
            intro _
            rfl
          · exact hst s0 h1
  | subscriptionChanged id status amount ps pe =>
    have hb2 : deriveTier amount = Tier.free ∨
        (status ≠ SubStatus.free ∧ status ≠ SubStatus.canceled) := by
      simpa [benignEvent] using hb
    show storeInv { st with
      subs := updateRowsByStripeIdStr id (subChangeFields status (deriveTier amount) ps pe) st.subs }
    intro s0 hs0
    rcases mem_updateRowsByStripeId hs0 with ⟨s1, hs1, he⟩
    by_cases hcase : s1.stripeSubscriptionId = some id
    · rw [if_pos hcase] at he
      subst he
      intro hor
      rcases hb2 with hfree | ⟨hns1, hns2⟩
      · exact hfree
      · rcases hor with h1 | h1
        · exact absurd h1 hns1
        · exact absurd h1 hns2
    · rw [if_neg hcase] at he
      subst he
      exact hst s0 hs1
  | subscriptionDeleted id =>
    show storeInv { st with subs := updateRowsByStripeIdStr id cancelFields st.subs }
    intro s0 hs0
    rcases mem_updateRowsByStripeId hs0 with ⟨s1, hs1, he⟩
    by_cases hcase : s1.stripeSubscriptionId = some id
    · rw [if_pos hcase] at he
      subst he
      intro _
      rfl
    · rw [if_neg hcase] at he
      subst he
      exact hst s0 hs1
  | paymentSucceeded subId =>
    cases subId with
    | none => exact hst
    | some x =>
      have hU : storeInv { st with
          subs := updateRowsByStripeIdStr x (paymentStamp now) st.subs } := by
        intro s0 hs0
        rcases mem_updateRowsByStripeId hs0 with ⟨s1, hs1, he⟩
        by_cases hcase : s1.stripeSubscriptionId = some x
        · rw [if_pos hcase] at he
          subst he
          intro hor
          exact hst s1 hs1 hor
        · rw [if_neg hcase] at he
          subst he
          exact hst s0 hs1
      show storeInv
        (match findSubByStripeIdStr x (updateRowsByStripeIdStr x (paymentStamp now) st.subs) with
        | some s2 =>
          resetUserUsage
            { st with subs := updateRowsByStripeIdStr x (paymentStamp now) st.subs } s2.userId
        | none => { st with subs := updateRowsByStripeIdStr x (paymentStamp now) st.subs })
      cases findSubByStripeIdStr x (updateRowsByStripeIdStr x (paymentStamp now) st.subs) with
      | some s2 => exact hU
      | none => exact hU
  | paymentFailed subId =>
    cases subId with
    | none => exact hst
    | some x =>
      show storeInv { st with subs := updateRowsByStripeIdStr x failStamp st.subs }
      intro s0 hs0
      rcases mem_updateRowsByStripeId hs0 with ⟨s1, hs1, he⟩
      by_cases hcase : s1.stripeSubscriptionId = some x
      · rw [if_pos hcase] at he
        subst he
        intro hor
        exact hst s1 hs1 hor
      · rw [if_neg hcase] at he
        subst he
        exact hst s0 hs1
  | unknownEvent => exact hst

/-- C4 (witness): a benign event (payment failure) applied to an invariant
store keeps the invariant. -/
theorem applyEvent_preserves_tierInv_witness :
    storeInv (applyEvent 0 (BillingEvent.paymentFailed (some "s1")) exSubStore) :=
  applyEvent_preserves_tierInv 0 (BillingEvent.paymentFailed (some "s1")) exSubStore
    (by decide) (by decide)

/-- C7: a PaymentSucceeded event whose subscription id resolves to a stored
subscription stamps paymentStatus active and lastPaymentAt now on the
matching row(s), resets every usage counter of the owning user to 0, and a
subsequent can-use check for that user grants on every recognized feature. -/
theorem handlePaymentSucceeded_resets (now : Int) (sid : String) (st : Store)
    (s : Subscription)
    (hs : getSubscriptionByStripeId st (some sid) = some s) :
    (handlePaymentSucceeded now (some sid) st).usage = resetRows s.userId st.usage ∧
    (∀ s0 ∈ (handlePaymentSucceeded now (some sid) st).subs,
      s0.stripeSubscriptionId = some sid →
      s0.paymentStatus = PaymentStatus.active ∧ s0.lastPaymentDate = some now) ∧
    (∀ r ∈ (handlePaymentSucceeded now (some sid) st).usage,
      r.userId = s.userId → r.usageCount = 0) ∧
    (∀ f, validFeature f = true →
      ∃ res, canUse (handlePaymentSucceeded now (some sid) st) s.userId f = Except.ok res ∧
        res.canUse = true) := by
  have hfind : findSubByStripeIdStr sid
      (updateRowsByStripeIdStr sid (paymentStamp now) st.subs)
      = some (paymentStamp now s) := by
    rw [findSub_updateRowsByStripeId sid (paymentStamp now) (fun _ => rfl) st.subs]
    have hs2 : findSubByStripeIdStr sid st.subs = some s := hs
    rw [hs2]
    rfl
  have hmain : handlePaymentSucceeded now (some sid) st
      = resetUserUsage
          { st with subs := updateRowsByStripeIdStr sid (paymentStamp now) st.subs }
          s.userId := by
    show
      (match findSubByStripeIdStr sid (updateRowsByStripeIdStr sid (paymentStamp now) st.subs) with
      | some s2 =>
        resetUserUsage
          { st with subs := updateRowsByStripeIdStr sid (paymentStamp now) st.subs } s2.userId
      | none => { st with subs := updateRowsByStripeIdStr sid (paymentStamp now) st.subs })
      = resetUserUsage
          { st with subs := updateRowsByStripeIdStr sid (paymentStamp now) st.subs }
          s.userId
    rw [hfind]
    rfl
  rw [hmain]
  refine ⟨rfl, ?_, ?_, ?_⟩
  · intro s0 hs0 hx
    rcases mem_updateRowsByStripeId hs0 with ⟨s1, _, he⟩
    by_cases hcase : s1.stripeSubscriptionId = some sid
    · rw [if_pos hcase] at he
      subst he
      exact ⟨rfl, rfl⟩
    · rw [if_neg hcase] at he
      subst he
      exact absurd hx hcase
  · intro r hr hru
    exact mem_resetRows hr hru
  · intro f hf
    exact canUse_true_of_zero _ s.userId f hf (countOf_resetUserUsage _ s.userId f)

/-- C7 (witness): a user at used 2 of limit 2 on assessment has the whole
usage table reset by a PaymentSucceeded event for subscription s2. -/
theorem handlePaymentSucceeded_resets_witness :
    (handlePaymentSucceeded 7 (some "s2") wPayStore).usage = resetRows "u2" wPayStore.usage :=
  (handlePaymentSucceeded_resets 7 "s2" wPayStore wPaySub (by decide)).1

/-- C8: one application of a SubscriptionDeleted event leaves every matching
subscription row with status canceled and plan tier free, a second
application leaves the very same store, and the rows match the same way
after two applications. -/
theorem handleSubscriptionDeleted_idem (sid : String) (st : Store) :
    (∀ s ∈ (handleSubscriptionDeleted sid st).subs, s.stripeSubscriptionId = some sid →
      s.status = SubStatus.canceled ∧ s.planType = Tier.free) ∧
    (∀ s ∈ (handleSubscriptionDeleted sid (handleSubscriptionDeleted sid st)).subs,
      s.stripeSubscriptionId = some sid →
      s.status = SubStatus.canceled ∧ s.planType = Tier.free) ∧
    handleSubscriptionDeleted sid (handleSubscriptionDeleted sid st)
      = handleSubscriptionDeleted sid st := by
  have hmem : ∀ st0 : Store, ∀ s ∈ (handleSubscriptionDeleted sid st0).subs,
      s.stripeSubscriptionId = some sid →
      s.status = SubStatus.canceled ∧ s.planType = Tier.free := by
    intro st0 s hs hx
    rcases mem_updateRowsByStripeId hs with ⟨s1, _, he⟩
    by_cases hcase : s1.stripeSubscriptionId = some sid
    · rw [if_pos hcase] at he
      subst he
      exact ⟨rfl, rfl⟩
    · rw [if_neg hcase] at he
      subst he
      exact absurd hx hcase
  refine ⟨hmem st, hmem (handleSubscriptionDeleted sid st), ?_⟩
  show ({ st with
      subs := updateRowsByStripeIdStr sid cancelFields
        (updateRowsByStripeIdStr sid cancelFields st.subs) } : Store)
    = { st with subs := updateRowsByStripeIdStr sid cancelFields st.subs }
  rw [updateRowsByStripeId_idem sid cancelFields (fun _ => rfl) (fun _ => rfl) st.subs]

/-- C8 (witness): deleting subscription s1 in the concrete store yields the
canceled free row after one application. -/
theorem handleSubscriptionDeleted_idem_witness :
    (Subscription.mk "u1" none (some "s1") SubStatus.canceled Tier.free none none none
        PaymentStatus.active).status = SubStatus.canceled ∧
    (Subscription.mk "u1" none (some "s1") SubStatus.canceled Tier.free none none none
        PaymentStatus.active).planType = Tier.free :=
  (handleSubscriptionDeleted_idem "s1" exSubStore).1
    (Subscription.mk "u1" none (some "s1") SubStatus.canceled Tier.free none none none
      PaymentStatus.active)
    (by decide) (by decide)

end MindQuest
